import Mathlib

/-!
Shallow embedding of the `logger` package of open-horizon/edge-utilities
(src/unnamed/part_001).  Pure parts (level tables, level-name conversion,
destination parsing) are translated directly; stateful parts (the engine
record, the rotation tick `checkFiles`, `Stop`, the ticker goroutine) are
embedded as explicit state passing over a filesystem/engine state record.
Go `int`/`int64` values are modelled as `Int` where sign matters (archive
indices, the retained-archive limit, file sizes) and as `Nat` where the
source only ever holds values in `0..7` (level ordinals).
-/

namespace EdgeLogger

/-! ### Log levels (source constants NONE..TRACE) -/

def NONE : Nat := 0

def STATUS : Nat := 1

def FATAL : Nat := 2

def ERROR : Nat := 3

def WARNING : Nat := 4

def INFO : Nat := 5

def DEBUG : Nat := 6

def TRACE : Nat := 7

/-- The `logLevels` map of the source: note the ninth entry `XTRACE`,
an alias that also maps to `TRACE`. -/
def logLevels : List (String × Nat) :=
  [("NONE", NONE), ("STATUS", STATUS), ("FATAL", FATAL), ("ERROR", ERROR),
   ("WARNING", WARNING), ("INFO", INFO), ("DEBUG", DEBUG), ("TRACE", TRACE),
   ("XTRACE", TRACE)]

/-- `logLevelPrefix` of the source: the fixed textual tag per level. -/
def logLevelTags : List String :=
  ["NONE: ", "STATUS: ", "FATAL: ", "ERROR: ", "WARNING: ", "INFO: ", "DEBUG: ", "TRACE: "]

/-- `logLevel2glog` of the source: level ordinal to glog verbosity threshold. -/
def logLevel2glog : List Nat := [0, 0, 0, 0, 0, 3, 5, 6]

/-- ASCII uppercase of a character (the Go level names and destination tokens
are all ASCII, where `strings.ToUpper`/`strings.EqualFold` agree with ASCII
case mapping). -/
def asciiUpperChar (c : Char) : Char :=
  if 'a' ≤ c ∧ c ≤ 'z' then Char.ofNat (c.toNat - 32) else c

def asciiUpper (s : String) : String := String.mk (s.data.map asciiUpperChar)

/-- The `logLevel` conversion of the source.  The Go function returns only the
ordinal and prints a console warning on an unknown name; the Boolean component
records whether that warning was printed. -/
def logLevel (stringLevel : String) : Nat × Bool :=
  match logLevels.lookup (asciiUpper stringLevel) with
  | some level => (level, false)
  | none => (INFO, true)

/-! ### Engine state and the leveled emission path -/

/-- The fields of the `Logger` struct that the emission, query, stop and
goroutine claims depend on.  `fileOpen` models whether `CurrentFile` is an
open handle; `tickerActive` models whether the ticker has been stopped. -/
structure LoggerState where
  useLogger : Bool
  level : Nat
  glogOn : Bool
  pfx : String
  stdoutOn : Bool
  syslogOn : Bool
  fileOpen : Bool
  tickerActive : Bool

/-- The primary (multiplexed-writer) branch of the source's `printf`:
it emits `logLevelPrefix[level] + format` iff `useLogger && Level >= level`.
`msg` stands for the caller's format string after argument expansion. -/
def printfPrimary (st : LoggerState) (lvl : Nat) (msg : String) : Option String :=
  if st.useLogger = true ∧ lvl ≤ st.level then
    some (logLevelTags.getD lvl "" ++ msg)
  else
    none

/-- `glog.V(threshold)`: true iff the global glog verbosity is at least the
threshold. -/
def glogV (verbosity : Nat) (threshold : Nat) : Bool :=
  decide (threshold ≤ verbosity)

/-- The source's `IsLogging`: a pure query, it formats and writes nothing. -/
def IsLogging (st : LoggerState) (verbosity : Nat) (lvl : Nat) : Bool :=
  decide (lvl ≤ st.level) || (st.glogOn && glogV verbosity (logLevel2glog.getD lvl 0))

/-! ### Stop and the ticker goroutine -/

/-- The source's `Stop`: when `useLogger` it closes the current file and stops
the ticker; it touches nothing else (in particular `useLogger` stays set). -/
def Stop (st : LoggerState) : LoggerState :=
  if st.useLogger then { st with fileOpen := false, tickerActive := false } else st

/-- Control directive produced by one iteration of the maintenance goroutine's
`for { select { ... } }` loop. -/
inductive LoopDirective where
  | continueLooping
  | exitLoop
  deriving DecidableEq, Repr

/-- The body of the goroutine started by `Init`: the select either receives a
tick (runs `checkFiles`, then loops) or blocks (`none`).  The loop body has no
break or return, so no branch ever produces `exitLoop`. -/
def tickerSelect (tickAvailable : Bool) : Option LoopDirective :=
  if tickAvailable then some LoopDirective.continueLooping else none

/-- Modelled from `time.Ticker` semantics: `Stop` prevents any future tick
from being delivered but does not close the channel, so a stopped ticker never
fires. -/
def tickerCanFire (tickerActive : Bool) : Bool := tickerActive

/-- Whether a call to the source's `printf` reaches the guarded
`lock(); Logger.Printf(...); unLock()` section (the primary write attempt). -/
def printfAttemptsGuardedWrite (st : LoggerState) (lvl : Nat) : Bool :=
  st.useLogger && decide (lvl ≤ st.level)

/-! ### Struct dumper -/

-- Embedding of the Go values handed to `Dump`: a nil interface value,
-- scalars, or a struct with named fields.
mutual

inductive GoValue where
  | nilInterface
  | intV (n : Int)
  | strV (s : String)
  | boolV (b : Bool)
  | structV (fields : GoFields)

inductive GoFields where
  | nil
  | cons (name : String) (v : GoValue) (rest : GoFields)

end

/-- The kind `reflect.TypeOf` reports; `none` models the nil `reflect.Type`
returned for a nil interface value. -/
inductive GoKind where
  | structK
  | intK
  | strK
  | boolK
  deriving DecidableEq, Repr

def typeOf : GoValue → Option GoKind
  | GoValue.nilInterface => none
  | GoValue.intV _ => some GoKind.intK
  | GoValue.strV _ => some GoKind.strK
  | GoValue.boolV _ => some GoKind.boolK
  | GoValue.structV _ => some GoKind.structK

def padSpaces (n : Nat) : String := String.mk (List.replicate n ' ')

/-- The source's `dumpHelper`: renders each field at the given indent,
recursing with indent+2 into struct-kinded fields.  Scalar rendering models
Go's `%v`. -/
def renderFields (ind : Nat) : GoFields → String
  | GoFields.nil => ""
  | GoFields.cons name v rest =>
    (match v with
     | GoValue.structV fs =>
       padSpaces ind ++ name ++ ":\n" ++ renderFields (ind + 2) fs
     | GoValue.intV n => padSpaces ind ++ name ++ "  " ++ toString n ++ "\n"
     | GoValue.strV s => padSpaces ind ++ name ++ "  " ++ s ++ "\n"
     | GoValue.boolV b =>
       padSpaces ind ++ name ++ "  " ++ (if b then "true" else "false") ++ "\n"
     | GoValue.nilInterface => padSpaces ind ++ name ++ "  " ++ "<nil>" ++ "\n")
      ++ renderFields ind rest

/-- Outcome of a `Dump` call.  `panicked` models the nil-pointer dereference
raised when `reflect.TypeOf(a)` is nil and the source calls `.Kind()` on it;
`alwaysLine` is the diagnostic sent through `printfAlways`. -/
inductive DumpOutcome where
  | panicked
  | alwaysLine (msg : String)
  | dumped (text : String)
  deriving DecidableEq

/-- The source's `Dump`.  `reflect.TypeOf` of a nil interface is nil, so the
kind check dereferences a nil `reflect.Type` and panics; a non-struct kind is
rejected through the always path; a struct is rendered field by field. -/
def Dump (label : String) (a : GoValue) : DumpOutcome :=
  match typeOf a with
  | none => DumpOutcome.panicked
  | some k =>
    if k = GoKind.structK then
      match a with
      | GoValue.structV fs =>
        DumpOutcome.dumped (label ++ "\n" ++ renderFields 2 fs)
      | _ => DumpOutcome.panicked
    else
      DumpOutcome.alwaysLine "Dump was called with an object that wasn't a struct\n"

/-! ### Initialization -/

/-- The source's `Parameters` struct (the field named `Prefix` in the source
is called `pfx` here). -/
structure Parameters where
  RootPath : String
  FileName : String
  MaxFileSize : Int
  MaxCompressedFilesNumber : Int
  Destinations : String
  pfx : String
  Level : String
  MaintenanceInterval : Int

/-- Outcomes of the filesystem and syslog calls `Init` performs, supplied as
an environment since the embedding has no real filesystem. -/
structure FSEnv where
  rootExists : Bool
  rootIsDir : Bool
  mkdirOk : Bool
  openFileOk : Bool
  syslogOk : Bool
  deriving DecidableEq, Repr

inductive InitError where
  | dirCreateFailed (path : String)
  | notADirectory (path : String)
  | fileOpenFailed (path : String)
  | syslogFailed
  | invalidDestinations (dests : String)
  deriving DecidableEq, Repr

/-- The engine fields `Init` establishes on success. -/
structure InitState where
  useLogger : Bool
  glogOn : Bool
  level : Nat
  levelWarned : Bool
  maxFileSize : Int
  maxCompressed : Int
  lockTokens : Nat
  tickerStarted : Bool
  fileOpened : Bool
  stdoutOn : Bool
  syslogOn : Bool
  deriving DecidableEq, Repr

/-- `strings.EqualFold` restricted to the ASCII tokens `Init` compares
against. -/
def equalFold (a b : String) : Bool := asciiUpper a == asciiUpper b

/-- `strings.Split(s, ",")` over the characters of `s`: on the empty string
this yields `[""]`, never an empty slice. -/
def splitCommaChars : List Char → List (List Char)
  | [] => [[]]
  | c :: rest =>
    let r := splitCommaChars rest
    if c = ',' then [] :: r
    else
      match r with
      | [] => [[c]]
      | h :: t => (c :: h) :: t

def splitComma (s : String) : List String :=
  (splitCommaChars s.data).map (fun cs => String.mk cs)

def parseDests (s : String) : Bool × Bool × Bool × Bool :=
  let dests := splitComma s
  if dests.length = 0 then (true, false, false, false)
  else
    dests.foldl
      (fun acc d =>
        if equalFold d "file" then (true, acc.2.1, acc.2.2.1, acc.2.2.2)
        else if equalFold d "stdout" then (acc.1, true, acc.2.2.1, acc.2.2.2)
        else if equalFold d "syslog" then (acc.1, acc.2.1, true, acc.2.2.2)
        else if equalFold d "glog" then (acc.1, acc.2.1, acc.2.2.1, true)
        else acc)
      (false, false, false, false)

/-- The source's `Init`, with filesystem/syslog call outcomes drawn from
`env`.  Mirrors the source order: parse destinations; for `file` ensure the
root directory and open the log file; add stdout; connect syslog; fail if no
writer and no glog; otherwise set up level, byte threshold, the pre-filled
guard channel and the ticker; finally the glog branch. -/
def Init (p : Parameters) (env : FSEnv) : Except InitError InitState :=
  let pd := parseDests p.Destinations
  let file := pd.1
  let toStdout := pd.2.1
  let toSyslog := pd.2.2.1
  let g := pd.2.2.2
  if file ∧ ¬env.rootExists ∧ ¬env.mkdirOk then
    Except.error (InitError.dirCreateFailed p.RootPath)
  else if file ∧ env.rootExists ∧ ¬env.rootIsDir then
    Except.error (InitError.notADirectory p.RootPath)
  else if file ∧ ¬env.openFileOk then
    Except.error (InitError.fileOpenFailed p.RootPath)
  else if toSyslog ∧ ¬env.syslogOk then
    Except.error InitError.syslogFailed
  else
    let writersCount := (if file then 1 else 0) + (if toStdout then 1 else 0)
      + (if toSyslog then 1 else 0)
    if writersCount = 0 ∧ ¬g then
      Except.error (InitError.invalidDestinations p.Destinations)
    else
      let useLogger := decide (0 < writersCount)
      Except.ok
        { useLogger := useLogger
          glogOn := g
          level := if useLogger ∨ g then (logLevel p.Level).1 else 0
          levelWarned := if useLogger ∨ g then (logLevel p.Level).2 else false
          maxFileSize := if useLogger then p.MaxFileSize * 1024 else 0
          maxCompressed := if useLogger then p.MaxCompressedFilesNumber else 0
          lockTokens := if useLogger then 1 else 0
          tickerStarted := useLogger
          fileOpened := file
          stdoutOn := toStdout
          syslogOn := toSyslog }

/-! ### Rotation tick (`checkFiles`) -/

/-- File operations the rotation tick can attempt, in the order the source
attempts them.  The archive maps are indexed by the Go `int` suffix of
`<file>.<i>.gz`. -/
inductive FileOp where
  | removeGz (i : Int)
  | renameGz (i : Int)
  | closeActive
  | renameActive
  | reopenActive
  | rebuildWriters
  | openSav
  | createZip
  | compressCopy
  | closeZip
  | closeSav
  | removeSav
  deriving DecidableEq, Repr

/-- Failure injection for the fallible filesystem steps of the tick: the stat
of the active file, the guarded swap's Close/Rename/OpenFile, and — per
archive index — the `os.Remove` of `<file>.<i>.gz` in the deletion loop and
the `os.Rename(<file>.<i>.gz, <file>.<i+1>.gz)` in the shift loop (both of
which the source survives: the remove failure is printed and the loop counter
decrements anyway, the shift-rename failure is silently ignored because the
source tests a stale error variable). -/
structure Faults where
  statFails : Bool
  closeFails : Bool
  renameActiveFails : Bool
  reopenFails : Bool
  removeGzFails : Int → Bool
  renameGzFails : Int → Bool

def noFaults : Faults := ⟨false, false, false, false, fun _ => false, fun _ => false⟩

structure RotConfig where
  maxFileSize : Int
  maxCompressed : Int
  deriving DecidableEq, Repr

/-- Filesystem-and-engine state seen by the rotation tick.  `gz i` is the
content generation stored in `<file>.<i>.gz` (or `none` if absent), `plain1`
the content of the transient uncompressed `<file>.1`, `curGen`/`curSize` the
content generation and size of the active file, and `lockTokens` the number of
tokens sitting in the capacity-1 guard channel (1 = free). -/
structure RotState where
  hasCurrentFile : Bool
  curSize : Int
  curGen : Nat
  plain1 : Option Nat
  gz : Int → Option Nat
  lockTokens : Nat

/-- `getOldestZipFileNumber`: probe `<file>.1.gz, <file>.2.gz, ...` and return
`i - 1` at the first missing index.  The source's unbounded loop is given fuel;
on a filesystem whose archives are bounded below the fuel the fuel is never
exhausted. -/
def probeFrom (gz : Int → Option Nat) (i : Int) : Nat → Int
  | 0 => i - 1
  | n + 1 => if (gz i).isSome then probeFrom gz (i + 1) n else i - 1

def eraseGz (gz : Int → Option Nat) (i : Int) : Int → Option Nat :=
  fun j => if j = i then none else gz j

/-- The archive-deletion loop body, run `n` times from index `i` downward:
each iteration attempts `os.Remove(<file>.<i>.gz)`; a failed removal (fault
injected through `rf`) leaves the archive on disk, the failure is printed and
ignored, and the loop counter decrements regardless. -/
def removeLoop (rf : Int → Bool) : Nat → Int → (Int → Option Nat) → List FileOp →
    ((Int → Option Nat) × List FileOp)
  | 0, _, gz, ops => (gz, ops)
  | n + 1, i, gz, ops =>
    removeLoop rf n (i - 1) (if rf i then gz else eraseGz gz i)
      (ops ++ [FileOp.removeGz i])

/-- One `os.Rename(<file>.<i>.gz, <file>.<i+1>.gz)` attempt: it fails when
the source archive is missing or when a fault is injected through `rf`
(either way the failure goes unreported, because the source tests a stale
error variable, and the archives are unchanged); on success the source moves
to `i+1`, overwriting any archive already there.  The Boolean reports whether
an existing target was overwritten. -/
def shiftOne (rf : Int → Bool) (gz : Int → Option Nat) (i : Int) :
    (Int → Option Nat) × Bool :=
  match gz i with
  | none => (gz, false)
  | some v =>
    if rf i then (gz, false)
    else
      (fun j => if j = i + 1 then some v else if j = i then none else gz j,
       (gz (i + 1)).isSome)

/-- The archive-shift loop, run `n` times from index `i` down to 1,
accumulating whether any rename overwrote an existing archive. -/
def shiftLoop (rf : Int → Bool) : Nat → Int → (Int → Option Nat) → List FileOp → Bool →
    ((Int → Option Nat) × List FileOp × Bool)
  | 0, _, gz, ops, ow => (gz, ops, ow)
  | n + 1, i, gz, ops, ow =>
    let r := shiftOne rf gz i
    shiftLoop rf n (i - 1) r.1 (ops ++ [FileOp.renameGz i]) (ow || r.2)

/-- The retirement phase of the tick: if the probed archive count `c` is at or
above `MaxCompressedFilesNumber`, delete from index `c` downward while the
index exceeds `MaxCompressedFilesNumber - 1` (Go `int` arithmetic, so the
bound may be negative).  Returns the new archive map, the operations, and the
decremented counter. -/
def rotateDelete (cfg : RotConfig) (rf : Int → Bool) (gz : Int → Option Nat)
    (c : Int) : (Int → Option Nat) × List FileOp × Int :=
  if cfg.maxCompressed ≤ c then
    let iters : Nat := (c - (cfg.maxCompressed - 1)).toNat
    let r := removeLoop rf iters c gz []
    (r.1, r.2, c - (iters : Int))
  else
    (gz, [], c)

/-- The shift phase: rename `i → i+1` from the surviving top index down to 1. -/
def rotateShift (rf : Int → Bool) (gz : Int → Option Nat) (cf : Int) :
    (Int → Option Nat) × List FileOp × Bool :=
  shiftLoop rf cf.toNat cf gz [] false

/-- The guarded swap and the compression phase of the tick, applied to a state
whose `gz` map already reflects the delete/shift phases.  Mirrors the source:
`lock()`; `Close` failure returns at once (without `unLock()`); `Rename` of
the active file is attempted and its failure reported but NOT returned from;
`OpenFile` failure releases the guard and returns; otherwise the writer set is
rebuilt, the guard is released, and the compression phase opens `<file>.1`
(failing immediately if it is absent), compresses it into `<file>.1.gz` and
removes it. -/
def rotateSwapAndCompress (st : RotState) (fl : Faults) :
    RotState × List FileOp :=
  let lock0 := st.lockTokens - 1
  if fl.closeFails then
    ({ st with lockTokens := lock0 }, [FileOp.closeActive])
  else
    let plain1' := if fl.renameActiveFails then st.plain1 else some st.curGen
    let renamedOk := !fl.renameActiveFails
    if fl.reopenFails then
      ({ st with plain1 := plain1', lockTokens := lock0 + 1 },
       [FileOp.closeActive, FileOp.renameActive, FileOp.reopenActive])
    else
      let curGen' := if renamedOk then st.curGen + 1 else st.curGen
      let curSize' := if renamedOk then 0 else st.curSize
      let opsHead := [FileOp.closeActive, FileOp.renameActive,
        FileOp.reopenActive, FileOp.rebuildWriters]
      match plain1' with
      | none =>
        ({ st with plain1 := none, curGen := curGen', curSize := curSize',
                   lockTokens := lock0 + 1 },
         opsHead ++ [FileOp.openSav])
      | some sav =>
        ({ st with gz := fun j => if j = 1 then some sav else st.gz j,
                   plain1 := none, curGen := curGen', curSize := curSize',
                   lockTokens := lock0 + 1 },
         opsHead ++ [FileOp.openSav, FileOp.createZip, FileOp.compressCopy,
           FileOp.closeZip, FileOp.closeSav, FileOp.removeSav])

/-- The source's `checkFiles` (one maintenance tick): no-op when there is no
current file or the stat fails; no-op when the observed size does not strictly
exceed `MaxFileSize`; otherwise probe the archive count, run the delete and
shift phases, and perform the guarded swap and compression. -/
def checkFiles (fuel : Nat) (cfg : RotConfig) (st : RotState) (fl : Faults) :
    RotState × List FileOp :=
  if st.hasCurrentFile = false then (st, [])
  else if fl.statFails then (st, [])
  else if cfg.maxFileSize < st.curSize then
    let c := probeFrom st.gz 1 fuel
    let d := rotateDelete cfg fl.removeGzFails st.gz c
    let s := rotateShift fl.renameGzFails d.1 d.2.2
    let r := rotateSwapAndCompress { st with gz := s.1 } fl
    (r.1, d.2.1 ++ s.2.1 ++ r.2)
  else (st, [])

/-! ### Derived descriptions of the loop traces -/

/-- A contiguous archive population: `<file>.j.gz` exists exactly for
`1 ≤ j ≤ c`, holding content `f j`. -/
def standardArchives (c : Nat) (f : Int → Nat) : Int → Option Nat :=
  fun j => if 1 ≤ j ∧ j ≤ (c : Int) then some (f j) else none

/-- The deletion operations emitted by `n` iterations starting at index `i`:
highest index first, descending. -/
def descRemoveOps : Nat → Int → List FileOp
  | 0, _ => []
  | n + 1, i => FileOp.removeGz i :: descRemoveOps n (i - 1)

/-- The rename operations emitted by `n` shift iterations starting at index
`i`: highest index first, descending. -/
def descRenameOps : Nat → Int → List FileOp
  | 0, _ => []
  | n + 1, i => FileOp.renameGz i :: descRenameOps n (i - 1)

/-! ### Loop lemmas -/

lemma probeFrom_standard (c : Nat) (f : Int → Nat) :
    ∀ (n : Nat) (i : Int), 1 ≤ i → i ≤ (c : Int) + 1 →
      (c : Int) + 1 - i < (n : Int) →
      probeFrom (standardArchives c f) i n = (c : Int) := by
  intro n
  induction n with
  | zero =>
    intro i h1 h2 h3
    simp only [Nat.cast_zero] at h3
    omega
  | succ n ih =>
    intro i h1 h2 h3
    by_cases hc : i ≤ (c : Int)
    · have hs : (standardArchives c f i).isSome = true := by
        simp [standardArchives, h1, hc]
      simp only [probeFrom, hs, if_true]
      exact ih (i + 1) (by omega) (by omega) (by push_cast at h3 ⊢; omega)
    · have hi : i = (c : Int) + 1 := by omega
      have hs : (standardArchives c f i).isSome = false := by
        simp only [standardArchives]
        rw [if_neg (by omega)]
        rfl
      simp only [probeFrom, hs, Bool.false_eq_true, if_false]
      omega

lemma removeLoop_map (rf : Int → Bool) (hrf : ∀ k, rf k = false) :
    ∀ (n : Nat) (i : Int) (gz : Int → Option Nat) (ops : List FileOp) (j : Int),
      (removeLoop rf n i gz ops).1 j =
        if i - (n : Int) < j ∧ j ≤ i then none else gz j := by
  intro n
  induction n with
  | zero =>
    intro i gz ops j
    simp only [removeLoop, Nat.cast_zero, sub_zero]
    rw [if_neg (by omega)]
  | succ n ih =>
    intro i gz ops j
    simp only [removeLoop, hrf, Bool.false_eq_true, if_false]
    rw [ih]
    simp only [eraseGz]
    push_cast
    split_ifs <;> first | rfl | omega

lemma removeLoop_ops (rf : Int → Bool) :
    ∀ (n : Nat) (i : Int) (gz : Int → Option Nat) (ops : List FileOp),
      (removeLoop rf n i gz ops).2 = ops ++ descRemoveOps n i := by
  intro n
  induction n with
  | zero => intro i gz ops; simp [removeLoop, descRemoveOps]
  | succ n ih =>
    intro i gz ops
    simp only [removeLoop, descRemoveOps]
    rw [ih]
    simp

lemma shiftLoop_ops (rf : Int → Bool) :
    ∀ (n : Nat) (i : Int) (gz : Int → Option Nat) (ops : List FileOp) (ow : Bool),
      (shiftLoop rf n i gz ops ow).2.1 = ops ++ descRenameOps n i := by
  intro n
  induction n with
  | zero => intro i gz ops ow; simp [shiftLoop, descRenameOps]
  | succ n ih =>
    intro i gz ops ow
    simp only [shiftLoop, descRenameOps]
    rw [ih]
    simp

lemma mem_descRemoveOps :
    ∀ (n : Nat) (i : Int) (op : FileOp), op ∈ descRemoveOps n i →
      ∃ k, op = FileOp.removeGz k := by
  intro n
  induction n with
  | zero => intro i op h; simp [descRemoveOps] at h
  | succ n ih =>
    intro i op h
    simp only [descRemoveOps, List.mem_cons] at h
    rcases h with h | h
    · exact ⟨i, h⟩
    · exact ih (i - 1) op h

lemma mem_descRenameOps :
    ∀ (n : Nat) (i : Int) (op : FileOp), op ∈ descRenameOps n i →
      ∃ k, op = FileOp.renameGz k := by
  intro n
  induction n with
  | zero => intro i op h; simp [descRenameOps] at h
  | succ n ih =>
    intro i op h
    simp only [descRenameOps, List.mem_cons] at h
    rcases h with h | h
    · exact ⟨i, h⟩
    · exact ih (i - 1) op h

lemma mem_rotateDelete_ops (cfg : RotConfig) (rf : Int → Bool)
    (gz : Int → Option Nat) (c : Int)
    (op : FileOp) (h : op ∈ (rotateDelete cfg rf gz c).2.1) :
    ∃ k, op = FileOp.removeGz k := by
  unfold rotateDelete at h
  split_ifs at h
  · simp only [removeLoop_ops, List.nil_append] at h
    exact mem_descRemoveOps _ _ _ h
  · simp at h

lemma mem_rotateShift_ops (rf : Int → Bool) (gz : Int → Option Nat) (cf : Int)
    (op : FileOp) (h : op ∈ (rotateShift rf gz cf).2.1) :
    ∃ k, op = FileOp.renameGz k := by
  unfold rotateShift at h
  rw [shiftLoop_ops] at h
  simp only [List.nil_append] at h
  exact mem_descRenameOps _ _ _ h

lemma shiftLoop_succ (rf : Int → Bool) (n : Nat) (i : Int)
    (gz : Int → Option Nat) (ops : List FileOp) (ow : Bool) :
    shiftLoop rf (n + 1) i gz ops ow =
      shiftLoop rf n (i - 1) (shiftOne rf gz i).1 (ops ++ [FileOp.renameGz i])
        (ow || (shiftOne rf gz i).2) := rfl

lemma shiftOne_of_some (rf : Int → Bool) (gz : Int → Option Nat) (i : Int)
    (v : Nat) (h : gz i = some v) (hrf : rf i = false) :
    shiftOne rf gz i =
      ((fun j => if j = i + 1 then some v else if j = i then none else gz j),
       (gz (i + 1)).isSome) := by
  unfold shiftOne
  rw [h]
  simp [hrf]

/-- Invariant proof for the archive-shift loop: run from index `n` down to 1
on a map holding `f j` at `1..n`, a vacancy at `n+1`, already-shifted entries
`f (j-1)` at `n+2..N+1`, and nothing elsewhere, the loop produces the fully
shifted map (entries `f (j-1)` at `2..N+1`) and never overwrites an existing
archive. -/
lemma shiftLoop_spec (rf : Int → Bool) (hrf : ∀ k, rf k = false)
    (f : Int → Nat) (N : Nat) :
    ∀ (n : Nat) (gz : Int → Option Nat) (ops : List FileOp) (ow : Bool),
      n ≤ N →
      (∀ j : Int, 1 ≤ j → j ≤ (n : Int) → gz j = some (f j)) →
      gz ((n : Int) + 1) = none →
      (∀ j : Int, (n : Int) + 2 ≤ j → j ≤ (N : Int) + 1 → gz j = some (f (j - 1))) →
      (∀ j : Int, j ≤ 0 → gz j = none) →
      (∀ j : Int, (N : Int) + 2 ≤ j → gz j = none) →
      (∀ j : Int, (shiftLoop rf n (n : Int) gz ops ow).1 j =
          if 2 ≤ j ∧ j ≤ (N : Int) + 1 then some (f (j - 1)) else none) ∧
      (shiftLoop rf n (n : Int) gz ops ow).2.2 = ow := by
  intro n
  induction n with
  | zero =>
    intro gz ops ow hN h1 hvac h2 h0 htop
    refine ⟨?_, rfl⟩
    intro j
    simp only [Nat.cast_zero, shiftLoop]
    split_ifs with h
    · exact h2 j (by omega) h.2
    · push_neg at h
      by_cases hj : j ≤ 0
      · exact h0 j hj
      · by_cases hj1 : j = 1
        · subst hj1
          simpa using hvac
        · have h2j : (2 : Int) ≤ j := by omega
          have := h h2j
          exact htop j (by omega)
  | succ n ih =>
    intro gz ops ow hN h1 hvac h2 h0 htop
    have hc : ((n + 1 : Nat) : Int) = (n : Int) + 1 := by push_cast; ring
    rw [hc] at h1 hvac h2 ⊢
    have hn0 : (0 : Int) ≤ (n : Int) := Int.natCast_nonneg n
    have hsrc : gz ((n : Int) + 1) = some (f ((n : Int) + 1)) :=
      h1 _ (by omega) (by omega)
    rw [shiftLoop_succ, shiftOne_of_some rf gz ((n : Int) + 1) _ hsrc (hrf _)]
    have hstep : (n : Int) + 1 - 1 = (n : Int) := by ring
    rw [hstep, hvac]
    simp only [Option.isSome_none, Bool.or_false]
    refine ih _ _ ow (by omega) ?_ ?_ ?_ ?_ ?_
    · intro j hj1 hj2
      have e1 : j ≠ (n : Int) + 1 + 1 := by omega
      have e2 : j ≠ (n : Int) + 1 := by omega
      simp only [e1, e2, if_false]
      exact h1 j hj1 (by omega)
    · have e1 : (n : Int) + 1 ≠ (n : Int) + 1 + 1 := by omega
      simp [e1]
    · intro j hjl hjr
      by_cases hje : j = (n : Int) + 1 + 1
      · subst hje
        have e3 : (n : Int) + 1 + 1 - 1 = (n : Int) + 1 := by ring
        simp [e3]
      · have e2 : j ≠ (n : Int) + 1 := by omega
        simp only [hje, e2, if_false]
        exact h2 j (by omega) hjr
    · intro j hj
      have e1 : j ≠ (n : Int) + 1 + 1 := by omega
      have e2 : j ≠ (n : Int) + 1 := by omega
      simp only [e1, e2, if_false]
      exact h0 j hj
    · intro j hj
      have e1 : j ≠ (n : Int) + 1 + 1 := by omega
      have e2 : j ≠ (n : Int) + 1 := by omega
      simp only [e1, e2, if_false]
      exact htop j hj

/-- The deletion phase on a contiguous population of `c` archives, for a
retention limit of at least 1: afterwards archives survive exactly at
`1 ≤ j ≤ min c (limit - 1)` (so for `c ≥ limit`, exactly `limit - 1` remain),
the counter equals that bound, and for `c ≥ limit` the deletions run from
index `c` downward. -/
lemma rotateDelete_spec (cfg : RotConfig) (rf : Int → Bool)
    (hrf : ∀ k, rf k = false) (c : Nat) (f : Int → Nat) :
    (∀ j : Int, (rotateDelete cfg rf (standardArchives c f) (c : Int)).1 j =
        if 1 ≤ j ∧ j ≤ min (c : Int) (cfg.maxCompressed - 1) then some (f j)
        else none) ∧
    (rotateDelete cfg rf (standardArchives c f) (c : Int)).2.2 =
      min (c : Int) (cfg.maxCompressed - 1) ∧
    ((cfg.maxCompressed ≤ (c : Int)) →
      (rotateDelete cfg rf (standardArchives c f) (c : Int)).2.1 =
        descRemoveOps ((c : Int) - (cfg.maxCompressed - 1)).toNat (c : Int)) := by
  unfold rotateDelete
  by_cases hb : cfg.maxCompressed ≤ (c : Int)
  · rw [if_pos hb]
    have hiter : (((c : Int) - (cfg.maxCompressed - 1)).toNat : Int) =
        (c : Int) - (cfg.maxCompressed - 1) := by omega
    refine ⟨?_, ?_, ?_⟩
    · intro j
      simp only [removeLoop_map rf hrf, standardArchives, hiter]
      split_ifs <;> first | rfl | omega
    · simp only [hiter]
      omega
    · intro _
      simp only [removeLoop_ops, List.nil_append]
  · rw [if_neg hb]
    refine ⟨?_, ?_, ?_⟩
    · intro j
      simp only [standardArchives]
      split_ifs <;> first | rfl | omega
    · simp only
      omega
    · intro h
      exact absurd h hb

/-! ### Sample states used by closed theorems -/

/-- A rotation state with three contiguous archives, an oversized active file
and a free guard token. -/
def rotSample : RotState :=
  ⟨true, 2000, 0, none, fun j => if 1 ≤ j ∧ j ≤ 3 then some 7 else none, 1⟩

/-- A rotation state with no archives and an oversized active file. -/
def rotEmpty : RotState := ⟨true, 2000, 0, none, fun _ => none, 1⟩

/-! ### Claim theorems -/

/-- C1: with the primary multiplexed path configured (`useLogger`), a leveled
call at ordinal `STATUS ≤ lvl ≤ TRACE` emits through the primary path iff
`lvl ≤ Level`; the emitted line is the level's fixed tag followed by the
expanded format string; and the decision and line are independent of which
destinations feed the multiplexer (any state agreeing on `useLogger` and
`level` emits identically). -/
theorem c1_primary_emission (st st' : LoggerState) (lvl : Nat) (msg : String)
    (hu : st.useLogger = true) (_hlo : STATUS ≤ lvl) (_hhi : lvl ≤ TRACE) :
    ((printfPrimary st lvl msg).isSome ↔ lvl ≤ st.level) ∧
    (lvl ≤ st.level →
      printfPrimary st lvl msg = some (logLevelTags.getD lvl "" ++ msg)) ∧
    (st'.useLogger = st.useLogger → st'.level = st.level →
      printfPrimary st' lvl msg = printfPrimary st lvl msg) := by
  refine ⟨?_, ?_, ?_⟩
  · simp [printfPrimary, hu]
  · intro h
    simp [printfPrimary, hu, h]
  · intro hu' hl'
    simp [printfPrimary, hu', hl']

theorem c1_primary_emission_witness :
    (⟨true, 5, false, "", true, false, true, true⟩ : LoggerState).useLogger = true ∧
    STATUS ≤ 3 ∧ (3 : Nat) ≤ TRACE ∧
    (((printfPrimary ⟨true, 5, false, "", true, false, true, true⟩ 3 "m").isSome ↔
        3 ≤ (⟨true, 5, false, "", true, false, true, true⟩ : LoggerState).level) ∧
     (3 ≤ (⟨true, 5, false, "", true, false, true, true⟩ : LoggerState).level →
       printfPrimary ⟨true, 5, false, "", true, false, true, true⟩ 3 "m" =
         some (logLevelTags.getD 3 "" ++ "m")) ∧
     ((⟨true, 5, true, "p", false, true, false, false⟩ : LoggerState).useLogger =
          (⟨true, 5, false, "", true, false, true, true⟩ : LoggerState).useLogger →
       (⟨true, 5, true, "p", false, true, false, false⟩ : LoggerState).level =
          (⟨true, 5, false, "", true, false, true, true⟩ : LoggerState).level →
       printfPrimary ⟨true, 5, true, "p", false, true, false, false⟩ 3 "m" =
         printfPrimary ⟨true, 5, false, "", true, false, true, true⟩ 3 "m")) :=
  ⟨rfl, by decide, by decide,
   c1_primary_emission ⟨true, 5, false, "", true, false, true, true⟩
     ⟨true, 5, true, "p", false, true, false, false⟩ 3 "m" rfl (by decide) (by decide)⟩

/-- C4 (code bug): with an empty destination list, `Init` does not default to
file-only; `strings.Split("", ",")` is `[""]` (length 1), so the
`len(dests) == 0` default branch is dead and none of the comparisons match,
and `Init` returns the no-valid-destination error even over a fully usable
filesystem. -/
theorem c4_empty_destinations_bug :
    Init ⟨"/var/log/app", "app", 10, 2, "", "", "INFO", 60⟩
        ⟨true, true, true, true, true⟩ =
      Except.error (InitError.invalidDestinations "") ∧
    splitComma "" = [""] := by
  exact ⟨rfl, by decide⟩

/-- C6 (counterexample): `"xtrace"` is not one of the eight level names, yet
it converts to the `TRACE` ordinal with no warning — not to `INFO` with a
warning as the claim states. -/
theorem c6_xtrace_counterexample :
    logLevel "xtrace" = (TRACE, false) ∧ TRACE ≠ INFO := by
  exact ⟨rfl, by decide⟩

/-- C6 (amended): level-name matching is case-insensitive over the eight
level names plus the alias `XTRACE` (which maps to `TRACE`); any name outside
those nine converts to the `INFO` ordinal with a console warning; the
conversion is total and never fails initialization. -/
theorem c6_level_name_amended (s : String)
    (h : logLevels.lookup (asciiUpper s) = none) :
    logLevel s = (INFO, true) ∧
    logLevels.map Prod.fst =
      ["NONE", "STATUS", "FATAL", "ERROR", "WARNING", "INFO", "DEBUG",
       "TRACE", "XTRACE"] ∧
    logLevel "xtrace" = (TRACE, false) ∧
    logLevel "XTrace" = (TRACE, false) ∧
    logLevel "Fatal" = (FATAL, false) ∧
    logLevel "warning" = (WARNING, false) := by
  refine ⟨?_, rfl, rfl, rfl, rfl, rfl⟩
  simp [logLevel, h]

theorem c6_level_name_amended_witness :
    logLevels.lookup (asciiUpper "verbose") = none ∧
    (logLevel "verbose" = (INFO, true) ∧
     logLevels.map Prod.fst =
       ["NONE", "STATUS", "FATAL", "ERROR", "WARNING", "INFO", "DEBUG",
        "TRACE", "XTRACE"] ∧
     logLevel "xtrace" = (TRACE, false) ∧
     logLevel "XTrace" = (TRACE, false) ∧
     logLevel "Fatal" = (FATAL, false) ∧
     logLevel "warning" = (WARNING, false)) :=
  ⟨by decide, c6_level_name_amended "verbose" (by decide)⟩

/-- C7: for every level ordinal `lvl ≤ 7`, `IsLogging` returns true iff the
configured primary level is at least `lvl`, or glog is active and the global
glog verbosity is at least `logLevel2glog[lvl]`; the mapped thresholds are
0/0/0/0 for STATUS/FATAL/ERROR/WARNING and 3/5/6 for INFO/DEBUG/TRACE.  The
query is a pure predicate: it formats and writes nothing. -/
theorem c7_islogging (st : LoggerState) (v lvl : Nat) (_hlvl : lvl ≤ 7) :
    (IsLogging st v lvl = true ↔
      (lvl ≤ st.level ∨ (st.glogOn = true ∧ logLevel2glog.getD lvl 0 ≤ v))) ∧
    logLevel2glog.getD STATUS 0 = 0 ∧ logLevel2glog.getD FATAL 0 = 0 ∧
    logLevel2glog.getD ERROR 0 = 0 ∧ logLevel2glog.getD WARNING 0 = 0 ∧
    logLevel2glog.getD INFO 0 = 3 ∧ logLevel2glog.getD DEBUG 0 = 5 ∧
    logLevel2glog.getD TRACE 0 = 6 := by
  refine ⟨?_, by decide, by decide, by decide, by decide, by decide, by decide,
    by decide⟩
  simp [IsLogging, glogV, Bool.or_eq_true, Bool.and_eq_true, decide_eq_true_iff]

theorem c7_islogging_witness :
    (6 : Nat) ≤ 7 ∧
    ((IsLogging ⟨true, 5, true, "", false, false, true, true⟩ 5 6 = true ↔
       (6 ≤ (⟨true, 5, true, "", false, false, true, true⟩ : LoggerState).level ∨
        ((⟨true, 5, true, "", false, false, true, true⟩ : LoggerState).glogOn = true ∧
         logLevel2glog.getD 6 0 ≤ 5))) ∧
     logLevel2glog.getD STATUS 0 = 0 ∧ logLevel2glog.getD FATAL 0 = 0 ∧
     logLevel2glog.getD ERROR 0 = 0 ∧ logLevel2glog.getD WARNING 0 = 0 ∧
     logLevel2glog.getD INFO 0 = 3 ∧ logLevel2glog.getD DEBUG 0 = 5 ∧
     logLevel2glog.getD TRACE 0 = 6) :=
  ⟨by decide, c7_islogging ⟨true, 5, true, "", false, false, true, true⟩ 5 6 (by decide)⟩

/-- C8 (counterexample): `Dump` on a nil interface value panics (the source
calls `.Kind()` on the nil `reflect.Type` that `reflect.TypeOf(nil)` returns)
instead of emitting the non-fatal diagnostic through the always path. -/
theorem c8_nil_dump_counterexample :
    Dump "label" GoValue.nilInterface = DumpOutcome.panicked ∧
    DumpOutcome.panicked ≠
      DumpOutcome.alwaysLine "Dump was called with an object that wasn't a struct\n" := by
  exact ⟨rfl, by decide⟩

/-- C8 (amended): for every non-nil input whose reflected kind is not struct,
`Dump` emits the reported, non-fatal diagnostic through the always write path
instead of a field dump and does not crash; a nil interface value, however,
causes a nil-dereference panic in the kind check. -/
theorem c8_dump_amended (label : String) (a : GoValue)
    (hnil : a ≠ GoValue.nilInterface) (hk : typeOf a ≠ some GoKind.structK) :
    Dump label a =
      DumpOutcome.alwaysLine "Dump was called with an object that wasn't a struct\n" ∧
    Dump label a ≠ DumpOutcome.panicked := by
  cases a with
  | nilInterface => exact absurd rfl hnil
  | structV fs => exact absurd rfl hk
  | intV n => exact ⟨rfl, by simp [Dump, typeOf]⟩
  | strV s => exact ⟨rfl, by simp [Dump, typeOf]⟩
  | boolV b => exact ⟨rfl, by simp [Dump, typeOf]⟩

theorem c8_dump_amended_witness :
    GoValue.intV 3 ≠ GoValue.nilInterface ∧
    typeOf (GoValue.intV 3) ≠ some GoKind.structK ∧
    (Dump "x" (GoValue.intV 3) =
       DumpOutcome.alwaysLine "Dump was called with an object that wasn't a struct\n" ∧
     Dump "x" (GoValue.intV 3) ≠ DumpOutcome.panicked) :=
  ⟨fun h => GoValue.noConfusion h, by decide,
   c8_dump_amended "x" (GoValue.intV 3) (fun h => GoValue.noConfusion h) (by decide)⟩

/-- C9 (code bug): the close-failure path of the rotation tick's guarded swap
returns without restoring the guard token — starting from a free guard
(`lockTokens = 1`), a tick whose `Close` fails ends with the token absent
(`lockTokens = 0`), so every subsequent guarded write would block forever. -/
theorem c9_lock_leak_bug :
    (checkFiles 9 ⟨1024, 2⟩ rotSample
        ⟨false, true, false, false, fun _ => false, fun _ => false⟩).1.lockTokens = 0 ∧
    rotSample.lockTokens = 1 := by
  exact ⟨rfl, rfl⟩

/-- C10: after `Stop`, the ticker is halted (a stopped ticker never fires, so
no further maintenance tick runs) while the goroutine's loop body has no exit
directive at all (it stays blocked forever rather than terminating); `Stop`
leaves `useLogger` set and the file closed, so a leveled call at an enabled
level still attempts a guarded write against the closed handle. -/
theorem c10_stop_behavior (st : LoggerState) (lvl : Nat)
    (hu : st.useLogger = true) (hl : lvl ≤ st.level) :
    (Stop st).tickerActive = false ∧
    (Stop st).fileOpen = false ∧
    (Stop st).useLogger = true ∧
    (∀ b : Bool, tickerSelect b ≠ some LoopDirective.exitLoop) ∧
    tickerSelect (tickerCanFire (Stop st).tickerActive) = none ∧
    printfAttemptsGuardedWrite (Stop st) lvl = true := by
  have hstop : Stop st = { st with fileOpen := false, tickerActive := false } := by
    simp [Stop, hu]
  refine ⟨by rw [hstop], by rw [hstop], by rw [hstop]; exact hu, ?_, ?_, ?_⟩
  · intro b
    cases b <;> simp [tickerSelect]
  · rw [hstop]
    simp [tickerSelect, tickerCanFire]
  · rw [hstop]
    simp [printfAttemptsGuardedWrite, hu, hl]

theorem c10_stop_behavior_witness :
    (⟨true, 5, false, "", true, false, true, true⟩ : LoggerState).useLogger = true ∧
    (3 : Nat) ≤ (⟨true, 5, false, "", true, false, true, true⟩ : LoggerState).level ∧
    ((Stop ⟨true, 5, false, "", true, false, true, true⟩).tickerActive = false ∧
     (Stop ⟨true, 5, false, "", true, false, true, true⟩).fileOpen = false ∧
     (Stop ⟨true, 5, false, "", true, false, true, true⟩).useLogger = true ∧
     (∀ b : Bool, tickerSelect b ≠ some LoopDirective.exitLoop) ∧
     tickerSelect (tickerCanFire
       (Stop ⟨true, 5, false, "", true, false, true, true⟩).tickerActive) = none ∧
     printfAttemptsGuardedWrite (Stop ⟨true, 5, false, "", true, false, true, true⟩) 3 = true) :=
  ⟨rfl, by decide,
   c10_stop_behavior ⟨true, 5, false, "", true, false, true, true⟩ 3 rfl (by decide)⟩

set_option maxHeartbeats 1000000 in
lemma init_ok_maxFileSize (p : Parameters) (env : FSEnv) (r : InitState)
    (hinit : Init p env = Except.ok r) (huse : r.useLogger = true) :
    r.maxFileSize = p.MaxFileSize * 1024 := by
  simp only [Init] at hinit
  split_ifs at hinit
  all_goals injection hinit with h
  all_goals subst h
  all_goals try rfl
  all_goals exfalso
  all_goals simp_all only [decide_eq_true_eq]

lemma rotateSwap_ops_ne_nil (st : RotState) (fl : Faults) :
    (rotateSwapAndCompress st fl).2 ≠ [] := by
  rcases fl with ⟨s, c, rn, ro, rmf, rgf⟩
  cases c <;> cases ro <;> cases rn <;>
    cases hp : st.plain1 <;>
      simp [rotateSwapAndCompress, hp]

lemma checkFiles_rotation_eq (fuel : Nat) (cfg : RotConfig) (st : RotState)
    (fl : Faults) (hcur : st.hasCurrentFile = true)
    (hstat : fl.statFails = false) (hsize : cfg.maxFileSize < st.curSize) :
    checkFiles fuel cfg st fl =
      ((rotateSwapAndCompress
          { st with gz := (rotateShift fl.renameGzFails
              (rotateDelete cfg fl.removeGzFails st.gz (probeFrom st.gz 1 fuel)).1
              (rotateDelete cfg fl.removeGzFails st.gz (probeFrom st.gz 1 fuel)).2.2).1 } fl).1,
       (rotateDelete cfg fl.removeGzFails st.gz (probeFrom st.gz 1 fuel)).2.1 ++
         (rotateShift fl.renameGzFails (rotateDelete cfg fl.removeGzFails st.gz (probeFrom st.gz 1 fuel)).1
            (rotateDelete cfg fl.removeGzFails st.gz (probeFrom st.gz 1 fuel)).2.2).2.1 ++
         (rotateSwapAndCompress
            { st with gz := (rotateShift fl.renameGzFails
                (rotateDelete cfg fl.removeGzFails st.gz (probeFrom st.gz 1 fuel)).1
                (rotateDelete cfg fl.removeGzFails st.gz (probeFrom st.gz 1 fuel)).2.2).1 } fl).2) := by
  unfold checkFiles
  rw [if_neg (by simp [hcur]), if_neg (by simp [hstat]), if_pos hsize]

/-- C2: at a maintenance tick with an active file and a successful stat, the
tick leaves the state untouched and performs no file operation at all iff the
observed size does not strictly exceed the configured threshold, which is the
configured maximum size in kilobytes times 1024 as established by `Init`. -/
theorem c2_rotation_threshold
    (fuel : Nat) (cfg : RotConfig) (st : RotState) (fl : Faults)
    (p : Parameters) (env : FSEnv) (r : InitState)
    (hcur : st.hasCurrentFile = true) (hstat : fl.statFails = false)
    (hinit : Init p env = Except.ok r) (huse : r.useLogger = true)
    (hcfg : cfg.maxFileSize = r.maxFileSize) :
    (checkFiles fuel cfg st fl = (st, []) ↔ st.curSize ≤ p.MaxFileSize * 1024) ∧
    r.maxFileSize = p.MaxFileSize * 1024 := by
  have hmfs : r.maxFileSize = p.MaxFileSize * 1024 :=
    init_ok_maxFileSize p env r hinit huse
  have hthr : cfg.maxFileSize = p.MaxFileSize * 1024 := by rw [hcfg, hmfs]
  refine ⟨⟨?_, ?_⟩, hmfs⟩
  · intro heq
    by_contra hgt
    push_neg at hgt
    have hsz : cfg.maxFileSize < st.curSize := by omega
    have hops : (checkFiles fuel cfg st fl).2 ≠ [] := by
      rw [checkFiles_rotation_eq fuel cfg st fl hcur hstat hsz]
      intro hnil
      simp only [List.append_eq_nil] at hnil
      exact rotateSwap_ops_ne_nil _ _ hnil.2
    rw [heq] at hops
    exact hops rfl
  · intro hle
    unfold checkFiles
    rw [if_neg (by simp [hcur]), if_neg (by simp [hstat]), if_neg (by omega)]

def c2p : Parameters := ⟨"/var/log/app", "app", 10, 2, "file", "", "INFO", 60⟩

def c2env : FSEnv := ⟨true, true, true, true, true⟩

def c2r : InitState := ⟨true, false, 5, false, 10240, 2, 1, true, true, false, false⟩

def c2st : RotState := ⟨true, 500, 0, none, fun _ => none, 1⟩

theorem c2_rotation_threshold_witness :
    c2st.hasCurrentFile = true ∧
    noFaults.statFails = false ∧
    Init c2p c2env = Except.ok c2r ∧
    c2r.useLogger = true ∧
    (⟨10240, 2⟩ : RotConfig).maxFileSize = c2r.maxFileSize ∧
    ((checkFiles 3 ⟨10240, 2⟩ c2st noFaults = (c2st, []) ↔
        c2st.curSize ≤ c2p.MaxFileSize * 1024) ∧
     c2r.maxFileSize = c2p.MaxFileSize * 1024) :=
  ⟨rfl, rfl, rfl, rfl, rfl,
   c2_rotation_threshold 3 ⟨10240, 2⟩ c2st noFaults c2p c2env c2r rfl rfl rfl rfl rfl⟩

def c3cfg : RotConfig := ⟨1024, 2⟩

def c3st : RotState := ⟨true, 2000, 0, none, standardArchives 3 (fun _ => 7), 1⟩

/-- A tick in which only the `os.Remove` of `<file>.3.gz` fails. -/
def c3failRemove : Faults :=
  ⟨false, false, false, false, fun k => k = 3, fun _ => false⟩

/-- C3 (counterexample): the retention bound fails on the source in two ways.
With three contiguous archives and a limit of 2, a tick whose removal of
`<file>.3.gz` fails still decrements the loop counter, shifts the survivor
and compresses, ending with archives at indices 1, 2 AND 3 — three retained
archives against a limit of 2.  And with `maxRetainedArchives = 0`, a
completing rotation still creates `<file>.1.gz` (the deletion loop runs down
to index 0, whose removal fails, and the counter ends at −1), retaining one
archive against a limit of 0. -/
theorem c3_retention_counterexample :
    (((checkFiles 5 c3cfg c3st c3failRemove).1.gz 1).isSome = true ∧
     ((checkFiles 5 c3cfg c3st c3failRemove).1.gz 2).isSome = true ∧
     ((checkFiles 5 c3cfg c3st c3failRemove).1.gz 3).isSome = true ∧
     c3cfg.maxCompressed = 2) ∧
    (((checkFiles 5 ⟨1024, 0⟩ rotEmpty noFaults).1.gz 1).isSome = true ∧
     (⟨1024, 0⟩ : RotConfig).maxCompressed = 0) := by
  exact ⟨⟨rfl, rfl, rfl, rfl⟩, ⟨rfl, rfl⟩⟩

lemma rotateSwap_ok_gz (fl : Faults) (hc : fl.closeFails = false)
    (hrA : fl.renameActiveFails = false) (hro : fl.reopenFails = false)
    (st : RotState) :
    (rotateSwapAndCompress st fl).1.gz =
      fun j => if j = 1 then some st.curGen else st.gz j := by
  simp [rotateSwapAndCompress, hc, hrA, hro]

/-- C3 (amended): for a rotation tick over a contiguous archive population of
size `c` whose guarded swap succeeds: the deletion pass, whenever the probed
count is at or above the limit, attempts removals from index `c` downward and
the attempted sequence is the same descending one whatever removals fail —
the loop continues past individual deletion failures.  Provided additionally
that `maxRetainedArchives ≥ 1` and that every archive removal and every shift
rename in the tick succeeds: exactly `limit − 1` archives survive the
deletion pass (when `c` was at or above the limit), the survivors are shifted
`i → i+1` from the highest surviving index down to 1 with no archive
overwritten, and afterwards archives exist only at indices `1..limit`, so the
retained count does not exceed the limit.  (When the limit is 0, or when a
removal fails, the bound can be exceeded — see the counterexample.) -/
theorem c3_retention_amended (fuel : Nat) (cfg : RotConfig) (st : RotState)
    (c : Nat) (f : Int → Nat) (fl : Faults)
    (hcur : st.hasCurrentFile = true)
    (hgz : st.gz = standardArchives c f)
    (hsize : cfg.maxFileSize < st.curSize)
    (hmax : 1 ≤ cfg.maxCompressed)
    (hfuel : c < fuel)
    (hstat : fl.statFails = false)
    (hclose : fl.closeFails = false)
    (hrenA : fl.renameActiveFails = false)
    (hreopen : fl.reopenFails = false)
    (hrm : ∀ k, fl.removeGzFails k = false)
    (hsh : ∀ k, fl.renameGzFails k = false) :
    (cfg.maxCompressed ≤ (c : Int) → ∀ rf : Int → Bool,
      (rotateDelete cfg rf st.gz (c : Int)).2.1 =
        descRemoveOps ((c : Int) - (cfg.maxCompressed - 1)).toNat (c : Int)) ∧
    (∀ j : Int, ((rotateDelete cfg fl.removeGzFails st.gz (c : Int)).1 j).isSome = true ↔
        (1 ≤ j ∧ j ≤ min (c : Int) (cfg.maxCompressed - 1))) ∧
    (rotateShift fl.renameGzFails
        (rotateDelete cfg fl.removeGzFails st.gz (c : Int)).1
        (rotateDelete cfg fl.removeGzFails st.gz (c : Int)).2.2).2.2 = false ∧
    (∀ j : Int, ((checkFiles fuel cfg st fl).1.gz j).isSome = true →
      1 ≤ j ∧ j ≤ cfg.maxCompressed) := by
  obtain ⟨hd1, hd2, hd3⟩ := rotateDelete_spec cfg fl.removeGzFails hrm c f
  have hcf0 : 0 ≤ min (c : Int) (cfg.maxCompressed - 1) := by omega
  have hcast : ((min (c : Int) (cfg.maxCompressed - 1)).toNat : Int) =
      min (c : Int) (cfg.maxCompressed - 1) := by omega
  have hshift := shiftLoop_spec fl.renameGzFails hsh f
    (min (c : Int) (cfg.maxCompressed - 1)).toNat
    (min (c : Int) (cfg.maxCompressed - 1)).toNat
    (rotateDelete cfg fl.removeGzFails (standardArchives c f) (c : Int)).1 [] false
    le_rfl
    (fun j hj1 hj2 => by rw [hd1 j]; rw [if_pos ⟨hj1, by omega⟩])
    (by rw [hd1]; rw [if_neg (by omega)])
    (fun j hj1 hj2 => by omega)
    (fun j hj => by rw [hd1 j]; rw [if_neg (by omega)])
    (fun j hj => by rw [hd1 j]; rw [if_neg (by omega)])
  rw [hcast] at hshift
  have hprobe : probeFrom (standardArchives c f) 1 fuel = (c : Int) :=
    probeFrom_standard c f fuel 1 le_rfl (by omega) (by omega)
  refine ⟨?_, ?_, ?_, ?_⟩
  · intro hb rf
    rw [hgz]
    unfold rotateDelete
    rw [if_pos hb]
    simp only [removeLoop_ops, List.nil_append]
  · intro j
    rw [hgz, hd1 j]
    by_cases h : 1 ≤ j ∧ j ≤ min (c : Int) (cfg.maxCompressed - 1)
    · simp [h]
    · rw [if_neg h]
      exact iff_of_false (by simp) h
  · rw [hgz]
    unfold rotateShift
    rw [hd2]
    exact hshift.2
  · intro j hj
    rw [checkFiles_rotation_eq fuel cfg st fl hcur hstat hsize] at hj
    simp only [rotateSwap_ok_gz fl hclose hrenA hreopen] at hj
    rw [hgz, hprobe] at hj
    by_cases hj1 : j = 1
    · omega
    · rw [if_neg hj1] at hj
      unfold rotateShift at hj
      rw [hd2] at hj
      rw [hshift.1 j] at hj
      by_cases hb : 2 ≤ j ∧ j ≤ min (c : Int) (cfg.maxCompressed - 1) + 1
      · omega
      · rw [if_neg hb] at hj
        simp at hj

theorem c3_retention_amended_witness :
    c3st.hasCurrentFile = true ∧
    c3st.gz = standardArchives 3 (fun _ => 7) ∧
    c3cfg.maxFileSize < c3st.curSize ∧
    1 ≤ c3cfg.maxCompressed ∧
    (3 : Nat) < 5 ∧
    noFaults.statFails = false ∧
    noFaults.closeFails = false ∧
    noFaults.renameActiveFails = false ∧
    noFaults.reopenFails = false ∧
    (∀ k : Int, noFaults.removeGzFails k = false) ∧
    (∀ k : Int, noFaults.renameGzFails k = false) ∧
    ((c3cfg.maxCompressed ≤ ((3 : Nat) : Int) → ∀ rf : Int → Bool,
       (rotateDelete c3cfg rf c3st.gz ((3 : Nat) : Int)).2.1 =
         descRemoveOps (((3 : Nat) : Int) - (c3cfg.maxCompressed - 1)).toNat
           ((3 : Nat) : Int)) ∧
     (∀ j : Int,
       ((rotateDelete c3cfg noFaults.removeGzFails c3st.gz ((3 : Nat) : Int)).1 j).isSome = true ↔
         (1 ≤ j ∧ j ≤ min ((3 : Nat) : Int) (c3cfg.maxCompressed - 1))) ∧
     (rotateShift noFaults.renameGzFails
         (rotateDelete c3cfg noFaults.removeGzFails c3st.gz ((3 : Nat) : Int)).1
         (rotateDelete c3cfg noFaults.removeGzFails c3st.gz ((3 : Nat) : Int)).2.2).2.2 = false ∧
     (∀ j : Int, ((checkFiles 5 c3cfg c3st noFaults).1.gz j).isSome = true →
       1 ≤ j ∧ j ≤ c3cfg.maxCompressed)) :=
  ⟨rfl, rfl, by decide, by decide, by decide, rfl, rfl, rfl, rfl,
   fun _ => rfl, fun _ => rfl,
   c3_retention_amended 5 c3cfg c3st 3 (fun _ => 7) noFaults rfl rfl (by decide)
     (by decide) (by decide) rfl rfl rfl rfl (fun _ => rfl) (fun _ => rfl)⟩

/-- C5 (counterexample): a tick whose rename of the active file fails still
attempts the reopen — `reopenActive` appears in the tick's operation trace
after the failed `renameActive` — contradicting the claim that a failed
rename aborts all remaining steps. -/
theorem c5_rename_failure_counterexample :
    FileOp.reopenActive ∈
      (checkFiles 9 ⟨1024, 2⟩ rotSample
        ⟨false, false, true, false, fun _ => false, fun _ => false⟩).2 ∧
    (⟨false, false, true, false, fun _ => false, fun _ => false⟩ :
        Faults).renameActiveFails = true := by
  exact ⟨by decide, rfl⟩

lemma not_mem_trace (d s rest : List FileOp) (op : FileOp)
    (hd : ∀ x ∈ d, ∃ k, x = FileOp.removeGz k)
    (hs : ∀ x ∈ s, ∃ k, x = FileOp.renameGz k)
    (hop1 : ∀ k, op ≠ FileOp.removeGz k)
    (hop2 : ∀ k, op ≠ FileOp.renameGz k)
    (hrest : op ∉ rest) :
    op ∉ d ++ s ++ rest := by
  intro hm
  simp only [List.mem_append] at hm
  rcases hm with (hm | hm) | hm
  · obtain ⟨k, hk⟩ := hd _ hm
    exact hop1 k hk
  · obtain ⟨k, hk⟩ := hs _ hm
    exact hop2 k hk
  · exact hrest hm

/-- C5 (amended): during the guarded swap of a rotation tick, a failure of
`Close` aborts every remaining step (no rename, reopen, writer rebuild or
compression is attempted — though the guard is not released, see the
lock-leak bug), and a failure of the reopen aborts the writer rebuild and the
compression after releasing the guard; a failed rename, however, does NOT
abort: the reopen and the writer rebuild are still attempted, and (absent a
leftover `<file>.1`) compression then stops at opening `<file>.1`, so no
archive is created.  The tick never crashes the process: it is a total
function of the state. -/
theorem c5_swap_failure_amended (fuel : Nat) (cfg : RotConfig) (st : RotState)
    (fl : Faults) (hcur : st.hasCurrentFile = true)
    (hstat : fl.statFails = false) (hsize : cfg.maxFileSize < st.curSize)
    (hlock : st.lockTokens = 1) :
    (fl.closeFails = true →
      FileOp.renameActive ∉ (checkFiles fuel cfg st fl).2 ∧
      FileOp.reopenActive ∉ (checkFiles fuel cfg st fl).2 ∧
      FileOp.rebuildWriters ∉ (checkFiles fuel cfg st fl).2 ∧
      FileOp.openSav ∉ (checkFiles fuel cfg st fl).2) ∧
    (fl.closeFails = false → fl.reopenFails = true →
      FileOp.rebuildWriters ∉ (checkFiles fuel cfg st fl).2 ∧
      FileOp.openSav ∉ (checkFiles fuel cfg st fl).2 ∧
      (checkFiles fuel cfg st fl).1.lockTokens = 1) ∧
    (fl.closeFails = false → fl.renameActiveFails = true → fl.reopenFails = false →
      FileOp.reopenActive ∈ (checkFiles fuel cfg st fl).2 ∧
      FileOp.rebuildWriters ∈ (checkFiles fuel cfg st fl).2 ∧
      (st.plain1 = none → FileOp.createZip ∉ (checkFiles fuel cfg st fl).2)) := by
  have htrace : (checkFiles fuel cfg st fl).2 =
      (rotateDelete cfg fl.removeGzFails st.gz (probeFrom st.gz 1 fuel)).2.1 ++
        (rotateShift fl.renameGzFails (rotateDelete cfg fl.removeGzFails st.gz (probeFrom st.gz 1 fuel)).1
          (rotateDelete cfg fl.removeGzFails st.gz (probeFrom st.gz 1 fuel)).2.2).2.1 ++
        (rotateSwapAndCompress
          { st with gz := (rotateShift fl.renameGzFails
              (rotateDelete cfg fl.removeGzFails st.gz (probeFrom st.gz 1 fuel)).1
              (rotateDelete cfg fl.removeGzFails st.gz (probeFrom st.gz 1 fuel)).2.2).1 } fl).2 := by
    rw [checkFiles_rotation_eq fuel cfg st fl hcur hstat hsize]
  have hstate : (checkFiles fuel cfg st fl).1 =
      (rotateSwapAndCompress
        { st with gz := (rotateShift fl.renameGzFails
            (rotateDelete cfg fl.removeGzFails st.gz (probeFrom st.gz 1 fuel)).1
            (rotateDelete cfg fl.removeGzFails st.gz (probeFrom st.gz 1 fuel)).2.2).1 } fl).1 := by
    rw [checkFiles_rotation_eq fuel cfg st fl hcur hstat hsize]
  rw [htrace, hstate]
  refine ⟨?_, ?_, ?_⟩
  · intro hc
    have hswap : (rotateSwapAndCompress
        { st with gz := (rotateShift fl.renameGzFails
            (rotateDelete cfg fl.removeGzFails st.gz (probeFrom st.gz 1 fuel)).1
            (rotateDelete cfg fl.removeGzFails st.gz (probeFrom st.gz 1 fuel)).2.2).1 } fl).2 =
        [FileOp.closeActive] := by
      simp [rotateSwapAndCompress, hc]
    rw [hswap]
    refine ⟨?_, ?_, ?_, ?_⟩ <;>
      exact not_mem_trace _ _ _ _
        (fun x hx => mem_rotateDelete_ops _ _ _ _ _ hx)
        (fun x hx => mem_rotateShift_ops _ _ _ _ hx)
        (fun k h => by cases h) (fun k h => by cases h) (by simp)
  · intro hc hro
    have hswap : (rotateSwapAndCompress
        { st with gz := (rotateShift fl.renameGzFails
            (rotateDelete cfg fl.removeGzFails st.gz (probeFrom st.gz 1 fuel)).1
            (rotateDelete cfg fl.removeGzFails st.gz (probeFrom st.gz 1 fuel)).2.2).1 } fl).2 =
        [FileOp.closeActive, FileOp.renameActive, FileOp.reopenActive] := by
      simp [rotateSwapAndCompress, hc, hro]
    have hswapLock : (rotateSwapAndCompress
        { st with gz := (rotateShift fl.renameGzFails
            (rotateDelete cfg fl.removeGzFails st.gz (probeFrom st.gz 1 fuel)).1
            (rotateDelete cfg fl.removeGzFails st.gz (probeFrom st.gz 1 fuel)).2.2).1 } fl).1.lockTokens =
        st.lockTokens - 1 + 1 := by
      simp [rotateSwapAndCompress, hc, hro]
    rw [hswap, hswapLock]
    refine ⟨?_, ?_, by omega⟩ <;>
      exact not_mem_trace _ _ _ _
        (fun x hx => mem_rotateDelete_ops _ _ _ _ _ hx)
        (fun x hx => mem_rotateShift_ops _ _ _ _ hx)
        (fun k h => by cases h) (fun k h => by cases h) (by simp)
  · intro hc hrn hro
    have hswap : (rotateSwapAndCompress
        { st with gz := (rotateShift fl.renameGzFails
            (rotateDelete cfg fl.removeGzFails st.gz (probeFrom st.gz 1 fuel)).1
            (rotateDelete cfg fl.removeGzFails st.gz (probeFrom st.gz 1 fuel)).2.2).1 } fl).2 =
        [FileOp.closeActive, FileOp.renameActive, FileOp.reopenActive,
          FileOp.rebuildWriters] ++
          (match st.plain1 with
           | none => [FileOp.openSav]
           | some _ => [FileOp.openSav, FileOp.createZip, FileOp.compressCopy,
               FileOp.closeZip, FileOp.closeSav, FileOp.removeSav]) := by
      cases hp : st.plain1 <;>
        simp [rotateSwapAndCompress, hc, hrn, hro, hp]
    rw [hswap]
    refine ⟨?_, ?_, ?_⟩
    · cases hp : st.plain1 <;> simp [hp]
    · cases hp : st.plain1 <;> simp [hp]
    · intro hp
      rw [hp]
      exact not_mem_trace _ _ _ _
        (fun x hx => mem_rotateDelete_ops _ _ _ _ _ hx)
        (fun x hx => mem_rotateShift_ops _ _ _ _ hx)
        (fun k h => by cases h) (fun k h => by cases h) (by simp)

def c5fl : Faults := ⟨false, true, false, false, fun _ => false, fun _ => false⟩

theorem c5_swap_failure_amended_witness :
    rotSample.hasCurrentFile = true ∧
    c5fl.statFails = false ∧
    (⟨1024, 2⟩ : RotConfig).maxFileSize < rotSample.curSize ∧
    rotSample.lockTokens = 1 ∧
    ((c5fl.closeFails = true →
       FileOp.renameActive ∉ (checkFiles 9 ⟨1024, 2⟩ rotSample c5fl).2 ∧
       FileOp.reopenActive ∉ (checkFiles 9 ⟨1024, 2⟩ rotSample c5fl).2 ∧
       FileOp.rebuildWriters ∉ (checkFiles 9 ⟨1024, 2⟩ rotSample c5fl).2 ∧
       FileOp.openSav ∉ (checkFiles 9 ⟨1024, 2⟩ rotSample c5fl).2) ∧
     (c5fl.closeFails = false → c5fl.reopenFails = true →
       FileOp.rebuildWriters ∉ (checkFiles 9 ⟨1024, 2⟩ rotSample c5fl).2 ∧
       FileOp.openSav ∉ (checkFiles 9 ⟨1024, 2⟩ rotSample c5fl).2 ∧
       (checkFiles 9 ⟨1024, 2⟩ rotSample c5fl).1.lockTokens = 1) ∧
     (c5fl.closeFails = false → c5fl.renameActiveFails = true →
       c5fl.reopenFails = false →
       FileOp.reopenActive ∈ (checkFiles 9 ⟨1024, 2⟩ rotSample c5fl).2 ∧
       FileOp.rebuildWriters ∈ (checkFiles 9 ⟨1024, 2⟩ rotSample c5fl).2 ∧
       (rotSample.plain1 = none →
         FileOp.createZip ∉ (checkFiles 9 ⟨1024, 2⟩ rotSample c5fl).2))) :=
  ⟨rfl, rfl, by decide, rfl,
   c5_swap_failure_amended 9 ⟨1024, 2⟩ rotSample c5fl rfl rfl (by decide) rfl⟩

end EdgeLogger
